import Mathlib

/-!
# A shallow embedding of `TypedPromise` (src/TypedPromise.ts)

The embedding models the `PromiseContext` / `BaseTypedPromise` / `TypedPromise`
classes.  JavaScript runtime values are modelled by `JSVal` (with JS
truthiness, which matters because the source uses `a || b` on values).
Callbacks are Lean functions returning `Except JSVal JSVal`: `.error e`
models a JS `throw e`, `.ok v` a normal return.

Each method of the source becomes a function `PromiseContext → Outcome`:
the resulting context (JS mutates the shared context in place; mutations
performed before a throw persist), the list of callback invocations that
happened during the call (the event trace), and the value thrown out of the
method, if any.
-/

/-- JavaScript runtime values, restricted to what the core manipulates:
`undefined`, `null`, booleans, numbers, strings, and the one object literal
the core itself creates, `\x7b cancelled: true \x7d` (`cancelObj`). -/
inductive JSVal : Type where
  | undef : JSVal
  | null : JSVal
  | bool : Bool → JSVal
  | num : Int → JSVal
  | str : String → JSVal
  | cancelObj : JSVal
deriving DecidableEq, Repr

/-- JS truthiness of a value (`undefined`, `null`, `false`, `0`, `""` are
falsy; every object is truthy). -/
def JSVal.truthy : JSVal → Bool
  | .undef => false
  | .null => false
  | .bool b => b
  | .num n => n != 0
  | .str s => s != ""
  | .cancelObj => true

/-- The JS `a || b` operator on values: `a` if truthy, else `b`. -/
def jsOr (a b : JSVal) : JSVal :=
  if a.truthy then a else b

/-- A one-argument JS callback: it may return a value or throw one. -/
def Callback : Type := JSVal → Except JSVal JSVal

/-- A two-argument JS callback (the `finally` callback). -/
def Callback2 : Type := JSVal → JSVal → Except JSVal JSVal

/-- A zero-argument JS callback (the `cancelled` callback). -/
def Callback0 : Type := Unit → Except JSVal JSVal

/-- The status field of `PromiseContext`:
`'pending' | 'resolved' | 'rejected' | 'cancelled'`. -/
inductive Status : Type where
  | pending : Status
  | resolved : Status
  | rejected : Status
  | cancelled : Status
deriving DecidableEq, Repr

/-- The shared `PromiseContext` class.  Fields declared `OkType` /
`FailType` with a definite-assignment assertion (`value!`, `error!`) hold
`undefined` until assigned.  `okCallback`, `failCallback` and
`finallyCallback` are initialized to no-op functions `() => \x7b\x7d` (which
return `undefined`); `catchCallback` and `cancelledCallback` are initialized
to `null`. -/
structure PromiseContext : Type where
  status : Status := .pending
  thenValue : JSVal := .undef
  catchCallback : Option Callback := none
  thenError : JSVal := .undef
  okCallback : Callback := fun _ => .ok .undef
  value : JSVal := .undef
  failCallback : Callback := fun _ => .ok .undef
  error : JSVal := .undef
  finallyCallback : Callback2 := fun _ _ => .ok .undef
  cancelledCallback : Option Callback0 := none
  isAwaited : Bool := false

/-- The context a freshly constructed `TypedPromise` starts from
(`new PromiseContext()`). -/
def PromiseContext.init : PromiseContext := {}

/-- One entry of the invocation trace: which callback slot was invoked,
with which argument(s). -/
inductive Event : Type where
  | okCalled : JSVal → Event
  | failCalled : JSVal → Event
  | catchCalled : JSVal → Event
  | cancelledCalled : Event
  | finallyCalled : JSVal → JSVal → Event
deriving DecidableEq, Repr

/-- Result of running one method on the shared context: the context after
all mutations that happened (JS mutates in place, so mutations made before
a throw persist), the callback invocations in order, and the value the
method threw, if it threw. -/
structure Outcome : Type where
  ctx : PromiseContext
  events : List Event
  thrown : Option JSVal

/-- Sequencing of method calls on the same context, as in a fluent chain
`p.ok(...).fail(...)`: if the first call threw, the next never runs. -/
def Outcome.andThen (o : Outcome) (f : PromiseContext → Outcome) : Outcome :=
  match o.thrown with
  | some _ => o
  | none =>
    let o2 := f o.ctx
    ⟨o2.ctx, o.events ++ o2.events, o2.thrown⟩

namespace PromiseContext

/-- Method `callAsFinally` of `PromiseContext`: calls `func(thenValue, error || thenError)`. -/
def callAsFinally (c : PromiseContext) (func : Callback2) : Outcome :=
  let a := c.thenValue
  let b := jsOr c.error c.thenError
  match func a b with
  | .ok _ => ⟨c, [.finallyCalled a b], none⟩
  | .error e => ⟨c, [.finallyCalled a b], some e⟩

/-- Method `callCatchCallbackOrPropagate` of `PromiseContext`: throws `error` if there is
no catch callback, else returns what the catch callback returns (which may
itself throw).  The result is the trace of the call paired with its
`Except` outcome. -/
def callCatchCallbackOrPropagate (c : PromiseContext) (error : JSVal) :
    List Event × Except JSVal JSVal :=
  match c.catchCallback with
  | none => ([], .error error)
  | some cb => ([.catchCalled error], cb error)

end PromiseContext

namespace TypedPromise

/-- Method `ok` of `BaseTypedPromise`: on an already-resolved context, invoke the
callback now and stage `callback(value) || value` back into `value`
(a throw goes to `callCatchCallbackOrPropagate`); otherwise store the
callback as the pending `okCallback`. -/
def ok (callback : Callback) (c : PromiseContext) : Outcome :=
  if c.status = .resolved then
    match callback c.value with
    | .ok r => ⟨{ c with value := jsOr r c.value }, [.okCalled c.value], none⟩
    | .error e =>
      match c.callCatchCallbackOrPropagate e with
      | (evs, .ok te) => ⟨{ c with thenError := te }, .okCalled c.value :: evs, none⟩
      | (evs, .error e2) => ⟨c, .okCalled c.value :: evs, some e2⟩
  else
    ⟨{ c with okCallback := callback }, [], none⟩

/-- Method `fail` of `BaseTypedPromise`: on an already-rejected context, invoke the
callback now with `error`; otherwise store it as the pending `failCallback`. -/
def fail (callback : Callback) (c : PromiseContext) : Outcome :=
  if c.status = .rejected then
    match callback c.error with
    | .ok _ => ⟨c, [.failCalled c.error], none⟩
    | .error e => ⟨c, [.failCalled c.error], some e⟩
  else
    ⟨{ c with failCallback := callback }, [], none⟩

/-- Method `catch` of `BaseTypedPromise`: on an already-rejected context, invoke the
callback now with `error`; otherwise store it as the `catchCallback`. -/
def catchM (callback : Callback) (c : PromiseContext) : Outcome :=
  if c.status = .rejected then
    match callback c.error with
    | .ok _ => ⟨c, [.catchCalled c.error], none⟩
    | .error e => ⟨c, [.catchCalled c.error], some e⟩
  else
    ⟨{ c with catchCallback := some callback }, [], none⟩

/-- Method `cancelled` of `BaseTypedPromise`: on an already-cancelled context, invoke the
callback now; otherwise store it as the `cancelledCallback`. -/
def cancelled (callback : Callback0) (c : PromiseContext) : Outcome :=
  if c.status = .cancelled then
    match callback () with
    | .ok _ => ⟨c, [.cancelledCalled], none⟩
    | .error e => ⟨c, [.cancelledCalled], some e⟩
  else
    ⟨{ c with cancelledCallback := some callback }, [], none⟩

/-- Method `finally` of `BaseTypedPromise`: on a resolved or rejected context, run the
callback now through `callAsFinally`; otherwise store it as the pending
`finallyCallback`. -/
def finallyM (callback : Callback2) (c : PromiseContext) : Outcome :=
  if c.status = .resolved ∨ c.status = .rejected then
    c.callAsFinally callback
  else
    ⟨{ c with finallyCallback := callback }, [], none⟩

/-- Method `cancel` of `BaseTypedPromise`: `this.context.status = 'cancelled'`,
with no guard on the current status. -/
def cancel (c : PromiseContext) : Outcome :=
  ⟨{ c with status := .cancelled }, [], none⟩

/-- The common prologue of `resolve` and `reject` for a cancelled context:
invoke `cancelledCallback` if set, then, if `isAwaited`, call
`failCallback(\x7b cancelled: true \x7d)`, and return. -/
def settleOnCancelled (c : PromiseContext) : Outcome :=
  let step1 : Outcome :=
    match c.cancelledCallback with
    | none => ⟨c, [], none⟩
    | some cb =>
      match cb () with
      | .ok _ => ⟨c, [.cancelledCalled], none⟩
      | .error e => ⟨c, [.cancelledCalled], some e⟩
  step1.andThen fun c1 =>
    if c1.isAwaited then
      match c1.failCallback .cancelObj with
      | .ok _ => ⟨c1, [.failCalled .cancelObj], none⟩
      | .error e => ⟨c1, [.failCalled .cancelObj], some e⟩
    else
      ⟨c1, [], none⟩

/-- Method `resolve` of `TypedPromise`: if cancelled, run the cancelled prologue and
return.  Otherwise set `status = 'resolved'`, `value`, `thenValue`; run
`okCallback` staging `okCallback(value) || value` into `thenValue`
(a throw goes to `callCatchCallbackOrPropagate`, whose own throw aborts the
method); finally run `callAsFinally(finallyCallback)`. -/
def resolve (v : JSVal) (c : PromiseContext) : Outcome :=
  if c.status = .cancelled then
    settleOnCancelled c
  else
    let c1 := { c with status := .resolved, value := v, thenValue := v }
    let step : Outcome :=
      match c1.okCallback c1.value with
      | .ok r => ⟨{ c1 with thenValue := jsOr r v }, [.okCalled c1.value], none⟩
      | .error e =>
        match c1.callCatchCallbackOrPropagate e with
        | (evs, .ok te) => ⟨{ c1 with thenError := te }, .okCalled c1.value :: evs, none⟩
        | (evs, .error e2) => ⟨c1, .okCalled c1.value :: evs, some e2⟩
    step.andThen fun c2 => c2.callAsFinally c2.finallyCallback

/-- Method `reject` of `TypedPromise`: if cancelled, run the cancelled prologue and
return.  Otherwise set `status = 'rejected'` and `error`, then run
`failCallback(error)`.  The source guards this call with
`if (this.context.failCallback) ... else throw this.context.error`, but the
field has type `Function`, is initialized to the no-op `() => \x7b\x7d` and is
never assigned `null`, and a function object is truthy, so the guard is
always taken and the `else throw` branch is unreachable; the translation
reflects that.  Afterwards run `callAsFinally(finallyCallback)`. -/
def reject (e : JSVal) (c : PromiseContext) : Outcome :=
  if c.status = .cancelled then
    settleOnCancelled c
  else
    let c1 := { c with status := .rejected, error := e }
    let step : Outcome :=
      match c1.failCallback c1.error with
      | .ok _ => ⟨c1, [.failCalled c1.error], none⟩
      | .error ex => ⟨c1, [.failCalled c1.error], some ex⟩
    step.andThen fun c2 => c2.callAsFinally c2.finallyCallback

/-- Method `then` of `TypedPromise` (the await bridge): set `isAwaited = true`; on an
already-resolved context invoke `callback` now, staging
`callback(value) || value` back into `value` (a throw goes to
`callCatchCallbackOrPropagate`), otherwise store it as `okCallback`;
then, unless the resolved branch threw, store `rejected` (when given) as
`failCallback`. -/
def thenM (callback : Callback) (rejected : Option Callback) (c : PromiseContext) : Outcome :=
  let c0 := { c with isAwaited := true }
  let step : Outcome :=
    if c0.status = .resolved then
      match callback c0.value with
      | .ok r => ⟨{ c0 with value := jsOr r c0.value }, [.okCalled c0.value], none⟩
      | .error e =>
        match c0.callCatchCallbackOrPropagate e with
        | (evs, .ok te) => ⟨{ c0 with thenError := te }, .okCalled c0.value :: evs, none⟩
        | (evs, .error e2) => ⟨c0, .okCalled c0.value :: evs, some e2⟩
    else
      ⟨{ c0 with okCallback := callback }, [], none⟩
  match step.thrown with
  | some _ => step
  | none =>
    match rejected with
    | some r => ⟨{ step.ctx with failCallback := r }, step.events, none⟩
    | none => step

end TypedPromise

/-! ## Concrete callbacks used in scenarios and witnesses -/

/-- The success callback of the immediate-resolve scenario, `v => v + 1`;
below it: `cbNoop2` and `cb0Noop` return `undefined` like `() => \x7b\x7d`,
`cbId` is `v => v`, `cbConst w` returns the constant `w`, and `cbThrow w`
throws `w`. -/
def cbIncr : Callback := fun v =>
  match v with
  | .num n => .ok (.num (n + 1))
  | _ => .ok .undef

def cbNoop2 : Callback2 := fun _ _ => .ok .undef

def cb0Noop : Callback0 := fun _ => .ok .undef

def cbId : Callback := fun v => .ok v

def cbConst (w : JSVal) : Callback := fun _ => .ok w

def cbThrow (w : JSVal) : Callback := fun _ => .error w

/-- Detection of the cancellation marker, as the consumer-side check
`'cancelled' in e` from the repository's tests does: true exactly on the
`\x7b cancelled: true \x7d` object. -/
def hasCancelledMarker : JSVal → Bool
  | .cancelObj => true
  | _ => false

/-- The context after a construction that immediately runs `resolve(42)`. -/
def afterResolve42 : PromiseContext :=
  (TypedPromise.resolve (.num 42) PromiseContext.init).ctx

/-- The context after `resolve(42)` followed by registering `ok(v => v + 1)`. -/
def afterResolve42Ok : PromiseContext :=
  (TypedPromise.ok cbIncr afterResolve42).ctx

/-! ## Facts about `||` on values -/

/-- An `undefined` left operand of `||` is falsy, so the right operand wins. -/
theorem jsOr_undef_left (b : JSVal) : jsOr .undef b = b := rfl

/-- A truthy left operand of `||` wins. -/
theorem jsOr_truthy (a b : JSVal) (h : a.truthy = true) : jsOr a b = a := by
  simp [jsOr, h]

/-! ## The claims -/

/-- C1: the claim states that delivering a failure on a pending context with
no failure observer ever registered re-raises the error to the caller of
`reject`.  The code does not: `failCallback` is initialized to the no-op
`() => \x7b\x7d` and never set to `null`, a function object is truthy, so the
`else throw this.context.error` branch of `reject` is unreachable.  For every
error value `e`, `reject e` on a fresh context returns normally
(`thrown = none`), moves the status to `rejected`, and its trace shows the
default no-op fail callback and the default finally callback being invoked:
the unobserved rejection is silently dropped. -/
theorem rejectWithoutFailObserverDoesNotThrow (e : JSVal) :
    (TypedPromise.reject e PromiseContext.init).thrown = none
    ∧ (TypedPromise.reject e PromiseContext.init).ctx.status = .rejected
    ∧ (TypedPromise.reject e PromiseContext.init).events
        = [.failCalled e, .finallyCalled .undef (jsOr e .undef)] :=
  ⟨rfl, rfl, rfl⟩

/-- C2 counterexample: calling `cancel()` on an already-resolved context does
not leave the state unchanged — `cancel` assigns `status = 'cancelled'`
unconditionally, so the state moves from `resolved` to `cancelled`. -/
theorem cancelOverridesResolvedState :
    (TypedPromise.resolve (.num 5) PromiseContext.init).ctx.status = .resolved
    ∧ (TypedPromise.cancel
        ((TypedPromise.resolve (.num 5) PromiseContext.init).ctx)).ctx.status = .cancelled
    ∧ Status.cancelled ≠ Status.resolved :=
  ⟨rfl, rfl, by decide⟩

/-- C2 amended: `cancel()` unconditionally sets the state to `cancelled`
from every state (so it is a no-op only when the state is already
`cancelled`, and it moves even `resolved`/`rejected` to `cancelled`), while
the observer-registration operations (`ok`, `fail`, `catch`, `cancelled`,
`finally`) never change the state. -/
theorem cancelAlwaysCancelsAndRegistrationsPreserveStatus
    (c : PromiseContext) (cb : Callback) (cb0 : Callback0) (cb2 : Callback2) :
    (TypedPromise.cancel c).ctx.status = .cancelled
    ∧ (TypedPromise.ok cb c).ctx.status = c.status
    ∧ (TypedPromise.fail cb c).ctx.status = c.status
    ∧ (TypedPromise.catchM cb c).ctx.status = c.status
    ∧ (TypedPromise.cancelled cb0 c).ctx.status = c.status
    ∧ (TypedPromise.finallyM cb2 c).ctx.status = c.status := by
  refine ⟨rfl, ?_, ?_, ?_, ?_, ?_⟩ <;>
    simp only [TypedPromise.ok, TypedPromise.fail, TypedPromise.catchM,
      TypedPromise.cancelled, TypedPromise.finallyM,
      PromiseContext.callAsFinally] <;>
    (repeat' split) <;> rfl

/-- C3 counterexample: in the scenario `resolve(42)` at construction, then
`ok(v => v + 1)`, the stored `value` does become `43`, but the subsequent
`finally` registration is invoked with `(42, undefined)`, not
`(43, undefined)`: the post-resolution `ok` updates `value` while
`callAsFinally` reads `thenValue`, which still holds the value staged at
resolution time. -/
theorem immediateResolveOkCleanupSees42Not43 :
    afterResolve42Ok.value = .num 43
    ∧ (TypedPromise.finallyM cbNoop2 afterResolve42Ok).events
        = [.finallyCalled (.num 42) .undef]
    ∧ Event.finallyCalled (.num 42) .undef ≠ Event.finallyCalled (.num 43) .undef := by
  refine ⟨rfl, rfl, by decide⟩

/-- C3 amended: after an immediate `resolve(42)` and a subsequent
`ok(v => v + 1)`, the stored `value` is `43`, the staging field `thenValue`
still holds `42`, and a subsequent `finally` registration is invoked
immediately with the pair `(42, undefined)`. -/
theorem immediateResolveOkScenario :
    afterResolve42Ok.value = .num 43
    ∧ afterResolve42Ok.thenValue = .num 42
    ∧ afterResolve42Ok.status = .resolved
    ∧ (TypedPromise.finallyM cbNoop2 afterResolve42Ok).events
        = [.finallyCalled (.num 42) .undef] :=
  ⟨rfl, rfl, rfl, rfl⟩

/-- C5 counterexample: a success callback returning `0` — a value that is
not `undefined` — does not replace the staged value: after `resolve(1)` and
`ok(_ => 0)`, the staged `value` is still `1`, because the source stages
`callback(value) || value` and `0` is falsy. -/
theorem falsyReturnKeepsStagedValue :
    (TypedPromise.ok (cbConst (.num 0))
        ((TypedPromise.resolve (.num 1) PromiseContext.init).ctx)).ctx.value = .num 1
    ∧ (JSVal.num 0) ≠ .undef
    ∧ (JSVal.num 1) ≠ .num 0 := by
  refine ⟨rfl, by decide, by decide⟩

/-- C5 amended: when a success callback returns `r` without throwing, the
staged value becomes `r || v`, i.e. `r` replaces the staged value exactly
when `r` is truthy, and any falsy return (`undefined`, but also `0`, `""`,
`false`, `null`) leaves the staged value equal to `v`.  This holds both at
registration on an already-resolved context (where `value` is staged) and at
resolution time (where `thenValue` is staged). -/
theorem truthyReturnReplacesStagedValue (v r : JSVal) (cb : Callback)
    (hcb : cb v = .ok r) :
    (TypedPromise.ok cb ((TypedPromise.resolve v PromiseContext.init).ctx)).ctx.value
        = jsOr r v
    ∧ (TypedPromise.resolve v ((TypedPromise.ok cb PromiseContext.init).ctx)).ctx.thenValue
        = jsOr r v
    ∧ (r.truthy = true → jsOr r v = r)
    ∧ (r.truthy = false → jsOr r v = v) := by
  refine ⟨?_, ?_, fun h => by simp [jsOr, h], fun h => by simp [jsOr, h]⟩
  · simp [TypedPromise.ok, TypedPromise.resolve, PromiseContext.init,
      Outcome.andThen, PromiseContext.callAsFinally, hcb]
  · cases hf : cbNoop2 (jsOr r v) .undef <;>
      simp [TypedPromise.ok, TypedPromise.resolve, PromiseContext.init,
        Outcome.andThen, PromiseContext.callAsFinally, jsOr_undef_left, hcb]

/-- C5 witness: instantiating the amended claim at `v = 1`, `r = 7`,
`cb = _ => 7`. -/
theorem truthyReturnReplacesStagedValue_witness :
    cbConst (.num 7) (.num 1) = .ok (.num 7)
    ∧ ((TypedPromise.ok (cbConst (.num 7))
          ((TypedPromise.resolve (.num 1) PromiseContext.init).ctx)).ctx.value
         = jsOr (.num 7) (.num 1)
       ∧ (TypedPromise.resolve (.num 1)
            ((TypedPromise.ok (cbConst (.num 7)) PromiseContext.init).ctx)).ctx.thenValue
         = jsOr (.num 7) (.num 1)
       ∧ (JSVal.truthy (.num 7) = true → jsOr (.num 7) (.num 1) = .num 7)
       ∧ (JSVal.truthy (.num 7) = false → jsOr (.num 7) (.num 1) = .num 1)) :=
  ⟨rfl, truthyReturnReplacesStagedValue (.num 1) (.num 7) (cbConst (.num 7)) rfl⟩

/-- C4 counterexample: after a rejection with the falsy error value `0`
(and a `finally` registered while pending), the cleanup callback is invoked
with `(undefined, undefined)` and not `(undefined, 0)`: `callAsFinally`
passes `error || thenError` as second argument and `0` is falsy. -/
theorem falsyRejectionCleanupLosesError :
    (TypedPromise.reject (.num 0)
        ((TypedPromise.finallyM cbNoop2 PromiseContext.init).ctx)).events
      = [.failCalled (.num 0), .finallyCalled .undef .undef]
    ∧ Event.finallyCalled .undef .undef ≠ Event.finallyCalled .undef (.num 0) := by
  refine ⟨rfl, by decide⟩

/-- C4 amended: with the observers registered while pending, the cleanup
callback receives `(finalValue, undefined)` after a clean resolution
(`finalValue` being the staged `cb(v) || v`), `(undefined, e)` after a
rejection with a truthy error value `e` (a falsy `e` is replaced by
`undefined`, since the second argument is `error || thenError`), and
`(originalResolvedValue, recoveredErrorValue)` after a handler fault caught
by the error-recovery observer. -/
theorem cleanupArgumentsOnEachPath (v e r x rec : JSVal)
    (cb tb ccb : Callback) (fin : Callback2)
    (hcb : cb v = .ok r) (htb : tb v = .error x) (hccb : ccb x = .ok rec)
    (he : e.truthy = true) :
    ((TypedPromise.resolve v ((TypedPromise.finallyM fin
        ((TypedPromise.ok cb PromiseContext.init).ctx)).ctx)).events
      = [.okCalled v, .finallyCalled (jsOr r v) .undef])
    ∧ ((TypedPromise.reject e ((TypedPromise.finallyM fin
          PromiseContext.init).ctx)).events
      = [.failCalled e, .finallyCalled .undef e])
    ∧ ((TypedPromise.resolve v ((TypedPromise.finallyM fin
          ((TypedPromise.catchM ccb ((TypedPromise.ok tb
            PromiseContext.init).ctx)).ctx)).ctx)).events
      = [.okCalled v, .catchCalled x, .finallyCalled v rec]) := by
  have hE : jsOr e .undef = e := jsOr_truthy _ _ he
  refine ⟨?_, ?_, ?_⟩
  · cases hf : fin (jsOr r v) .undef <;>
      simp [TypedPromise.resolve, TypedPromise.finallyM, TypedPromise.ok,
        PromiseContext.init, Outcome.andThen, PromiseContext.callAsFinally,
        jsOr_undef_left, hcb, hf]
  · cases hf : fin .undef e <;>
      simp [TypedPromise.reject, TypedPromise.finallyM, PromiseContext.init,
        Outcome.andThen, PromiseContext.callAsFinally, jsOr_undef_left, hE, hf]
  · cases hf : fin v rec <;>
      simp [TypedPromise.resolve, TypedPromise.finallyM, TypedPromise.ok,
        TypedPromise.catchM, PromiseContext.init, Outcome.andThen,
        PromiseContext.callAsFinally, PromiseContext.callCatchCallbackOrPropagate,
        jsOr_undef_left, hcb, htb, hccb, hf]

/-- C4 witness: the amended claim at `v = 1`, `e = 2`, `r = 3`, `x = 4`,
`rec = 5`, with `cb = _ => 3`, `tb = _ => throw 4`, `ccb = _ => 5`. -/
theorem cleanupArgumentsOnEachPath_witness :
    cbConst (.num 3) (.num 1) = .ok (.num 3)
    ∧ cbThrow (.num 4) (.num 1) = .error (.num 4)
    ∧ cbConst (.num 5) (.num 4) = .ok (.num 5)
    ∧ JSVal.truthy (.num 2) = true
    ∧ (((TypedPromise.resolve (.num 1) ((TypedPromise.finallyM cbNoop2
          ((TypedPromise.ok (cbConst (.num 3)) PromiseContext.init).ctx)).ctx)).events
        = [.okCalled (.num 1), .finallyCalled (jsOr (.num 3) (.num 1)) .undef])
      ∧ ((TypedPromise.reject (.num 2) ((TypedPromise.finallyM cbNoop2
            PromiseContext.init).ctx)).events
        = [.failCalled (.num 2), .finallyCalled .undef (.num 2)])
      ∧ ((TypedPromise.resolve (.num 1) ((TypedPromise.finallyM cbNoop2
            ((TypedPromise.catchM (cbConst (.num 5)) ((TypedPromise.ok (cbThrow (.num 4))
              PromiseContext.init).ctx)).ctx)).ctx)).events
        = [.okCalled (.num 1), .catchCalled (.num 4), .finallyCalled (.num 1) (.num 5)])) :=
  ⟨rfl, rfl, rfl, by decide,
    cleanupArgumentsOnEachPath (.num 1) (.num 2) (.num 3) (.num 4) (.num 5)
      (cbConst (.num 3)) (cbThrow (.num 4)) (cbConst (.num 5)) cbNoop2
      rfl rfl rfl (by decide)⟩

/-- C6 counterexample: when the success observer throws and no
error-recovery observer is registered, the settlement reaches the
`resolved` state but the cleanup callback registered while pending is never
invoked — the thrown value propagates out of `resolve` before
`callAsFinally` runs, so the trace contains no cleanup invocation at all. -/
theorem unrecoveredFaultSkipsCleanup :
    (TypedPromise.resolve (.num 1) ((TypedPromise.finallyM cbNoop2
        ((TypedPromise.ok (cbThrow (.str "boom")) PromiseContext.init).ctx)).ctx)).ctx.status
      = .resolved
    ∧ (TypedPromise.resolve (.num 1) ((TypedPromise.finallyM cbNoop2
        ((TypedPromise.ok (cbThrow (.str "boom")) PromiseContext.init).ctx)).ctx)).thrown
      = some (.str "boom")
    ∧ (TypedPromise.resolve (.num 1) ((TypedPromise.finallyM cbNoop2
        ((TypedPromise.ok (cbThrow (.str "boom")) PromiseContext.init).ctx)).ctx)).events
      = [.okCalled (.num 1)] :=
  ⟨rfl, rfl, rfl⟩

/-- C6 amended: the cleanup callback registered while pending is invoked on
every settlement out of which no exception escapes — on a clean resolution,
on a resolution whose handler fault is recovered by a registered
error-recovery observer, and on a rejection — but when the success observer
throws and no error-recovery observer is registered, the thrown value
propagates out of the settlement entry point and the cleanup callback is
not invoked, even though the state did reach `resolved`. -/
theorem cleanupRunsUnlessUnrecoveredFaultEscapes (v r x rec e2 : JSVal)
    (cb tb ccb : Callback) (fin : Callback2)
    (hcb : cb v = .ok r) (htb : tb v = .error x) (hccb : ccb x = .ok rec) :
    ((TypedPromise.resolve v ((TypedPromise.finallyM fin
        ((TypedPromise.ok cb PromiseContext.init).ctx)).ctx)).events
      = [.okCalled v, .finallyCalled (jsOr r v) .undef])
    ∧ ((TypedPromise.resolve v ((TypedPromise.finallyM fin
          ((TypedPromise.catchM ccb ((TypedPromise.ok tb
            PromiseContext.init).ctx)).ctx)).ctx)).events
      = [.okCalled v, .catchCalled x, .finallyCalled v rec])
    ∧ ((TypedPromise.reject e2 ((TypedPromise.finallyM fin
          PromiseContext.init).ctx)).events
      = [.failCalled e2, .finallyCalled .undef (jsOr e2 .undef)])
    ∧ ((TypedPromise.resolve v ((TypedPromise.finallyM fin
          ((TypedPromise.ok tb PromiseContext.init).ctx)).ctx)).thrown = some x)
    ∧ ((TypedPromise.resolve v ((TypedPromise.finallyM fin
          ((TypedPromise.ok tb PromiseContext.init).ctx)).ctx)).events
      = [.okCalled v]) := by
  refine ⟨?_, ?_, ?_, ?_, ?_⟩
  · cases hf : fin (jsOr r v) .undef <;>
      simp [TypedPromise.resolve, TypedPromise.finallyM, TypedPromise.ok,
        PromiseContext.init, Outcome.andThen, PromiseContext.callAsFinally,
        jsOr_undef_left, hcb, hf]
  · cases hf : fin v rec <;>
      simp [TypedPromise.resolve, TypedPromise.finallyM, TypedPromise.ok,
        TypedPromise.catchM, PromiseContext.init, Outcome.andThen,
        PromiseContext.callAsFinally, PromiseContext.callCatchCallbackOrPropagate,
        jsOr_undef_left, hcb, htb, hccb, hf]
  · cases hf : fin .undef (jsOr e2 .undef) <;>
      simp [TypedPromise.reject, TypedPromise.finallyM, PromiseContext.init,
        Outcome.andThen, PromiseContext.callAsFinally, jsOr_undef_left, hf]
  · simp [TypedPromise.resolve, TypedPromise.finallyM, TypedPromise.ok,
      PromiseContext.init, Outcome.andThen, PromiseContext.callAsFinally,
      PromiseContext.callCatchCallbackOrPropagate, htb]
  · simp [TypedPromise.resolve, TypedPromise.finallyM, TypedPromise.ok,
      PromiseContext.init, Outcome.andThen, PromiseContext.callAsFinally,
      PromiseContext.callCatchCallbackOrPropagate, htb]

/-- C6 witness: the amended claim at `v = 1`, `r = 3`, `x = 4`, `rec = 5`,
`e2 = 6`. -/
theorem cleanupRunsUnlessUnrecoveredFaultEscapes_witness :
    cbConst (.num 3) (.num 1) = .ok (.num 3)
    ∧ cbThrow (.num 4) (.num 1) = .error (.num 4)
    ∧ cbConst (.num 5) (.num 4) = .ok (.num 5)
    ∧ (((TypedPromise.resolve (.num 1) ((TypedPromise.finallyM cbNoop2
          ((TypedPromise.ok (cbConst (.num 3)) PromiseContext.init).ctx)).ctx)).events
        = [.okCalled (.num 1), .finallyCalled (jsOr (.num 3) (.num 1)) .undef])
      ∧ ((TypedPromise.resolve (.num 1) ((TypedPromise.finallyM cbNoop2
            ((TypedPromise.catchM (cbConst (.num 5)) ((TypedPromise.ok (cbThrow (.num 4))
              PromiseContext.init).ctx)).ctx)).ctx)).events
        = [.okCalled (.num 1), .catchCalled (.num 4), .finallyCalled (.num 1) (.num 5)])
      ∧ ((TypedPromise.reject (.num 6) ((TypedPromise.finallyM cbNoop2
            PromiseContext.init).ctx)).events
        = [.failCalled (.num 6), .finallyCalled .undef (jsOr (.num 6) .undef)])
      ∧ ((TypedPromise.resolve (.num 1) ((TypedPromise.finallyM cbNoop2
            ((TypedPromise.ok (cbThrow (.num 4)) PromiseContext.init).ctx)).ctx)).thrown
        = some (.num 4))
      ∧ ((TypedPromise.resolve (.num 1) ((TypedPromise.finallyM cbNoop2
            ((TypedPromise.ok (cbThrow (.num 4)) PromiseContext.init).ctx)).ctx)).events
        = [.okCalled (.num 1)])) :=
  ⟨rfl, rfl, rfl,
    cleanupRunsUnlessUnrecoveredFaultEscapes (.num 1) (.num 3) (.num 4) (.num 5) (.num 6)
      (cbConst (.num 3)) (cbThrow (.num 4)) (cbConst (.num 5)) cbNoop2
      rfl rfl rfl⟩

/-- C7 counterexample: an execution in which the promise is simply rejected
and no success callback ever throws — `reject(7)` on a fresh context, whose
trace contains no success-callback invocation at all — followed by a `catch`
registration, invokes the error-recovery callback immediately with the
rejected error: `catch` on an already-rejected context calls its argument
with `error` at registration time. -/
theorem catchFiresOnAlreadyRejectedRegistration :
    (TypedPromise.reject (.num 7) PromiseContext.init).events
      = [.failCalled (.num 7), .finallyCalled .undef (.num 7)]
    ∧ (TypedPromise.catchM cbId
        ((TypedPromise.reject (.num 7) PromiseContext.init).ctx)).events
      = [.catchCalled (.num 7)] :=
  ⟨rfl, rfl⟩

/-- C7 amended: the error-recovery callback is invoked when a success
callback throws (delivered through `callCatchCallbackOrPropagate`), and it
is additionally invoked immediately with the rejected error when it is
registered on an already-rejected context; it is not invoked on a clean
resolution, and a `catch` registered while the context is still pending is
not invoked by a plain rejection. -/
theorem catchInvocationRule (v e w r x rec : JSVal) (cb tb ccb : Callback)
    (hcb : cb v = .ok r) (hw : ccb e = .ok w)
    (htb : tb v = .error x) (hrec : ccb x = .ok rec) :
    ((TypedPromise.resolve v ((TypedPromise.catchM ccb
        ((TypedPromise.ok cb PromiseContext.init).ctx)).ctx)).events
      = [.okCalled v, .finallyCalled (jsOr r v) .undef])
    ∧ ((TypedPromise.reject e ((TypedPromise.catchM ccb
          PromiseContext.init).ctx)).events
      = [.failCalled e, .finallyCalled .undef (jsOr e .undef)])
    ∧ ((TypedPromise.catchM ccb
          ((TypedPromise.reject e PromiseContext.init).ctx)).events
      = [.catchCalled e])
    ∧ ((TypedPromise.resolve v ((TypedPromise.catchM ccb
          ((TypedPromise.ok tb PromiseContext.init).ctx)).ctx)).events
      = [.okCalled v, .catchCalled x, .finallyCalled v rec]) := by
  refine ⟨?_, ?_, ?_, ?_⟩
  · simp [TypedPromise.resolve, TypedPromise.catchM, TypedPromise.ok,
      PromiseContext.init, Outcome.andThen, PromiseContext.callAsFinally,
      jsOr_undef_left, hcb]
  · simp [TypedPromise.reject, TypedPromise.catchM, PromiseContext.init,
      Outcome.andThen, PromiseContext.callAsFinally, jsOr_undef_left]
  · simp [TypedPromise.reject, TypedPromise.catchM, PromiseContext.init,
      Outcome.andThen, PromiseContext.callAsFinally, hw]
  · simp [TypedPromise.resolve, TypedPromise.catchM, TypedPromise.ok,
      PromiseContext.init, Outcome.andThen, PromiseContext.callAsFinally,
      PromiseContext.callCatchCallbackOrPropagate, jsOr_undef_left, htb, hrec]

/-- C7 witness: the amended claim at `v = 1`, `e = 2`, `w = 9`, `r = 3`,
`x = 4`, `rec = 5`, with `ccb = _ => 9` on `e` replaced by a constant
callback returning `9` (so `w = 9 = rec` on every input). -/
theorem catchInvocationRule_witness :
    cbConst (.num 3) (.num 1) = .ok (.num 3)
    ∧ cbConst (.num 9) (.num 2) = .ok (.num 9)
    ∧ cbThrow (.num 4) (.num 1) = .error (.num 4)
    ∧ cbConst (.num 9) (.num 4) = .ok (.num 9)
    ∧ (((TypedPromise.resolve (.num 1) ((TypedPromise.catchM (cbConst (.num 9))
          ((TypedPromise.ok (cbConst (.num 3)) PromiseContext.init).ctx)).ctx)).events
        = [.okCalled (.num 1), .finallyCalled (jsOr (.num 3) (.num 1)) .undef])
      ∧ ((TypedPromise.reject (.num 2) ((TypedPromise.catchM (cbConst (.num 9))
            PromiseContext.init).ctx)).events
        = [.failCalled (.num 2), .finallyCalled .undef (jsOr (.num 2) .undef)])
      ∧ ((TypedPromise.catchM (cbConst (.num 9))
            ((TypedPromise.reject (.num 2) PromiseContext.init).ctx)).events
        = [.catchCalled (.num 2)])
      ∧ ((TypedPromise.resolve (.num 1) ((TypedPromise.catchM (cbConst (.num 9))
            ((TypedPromise.ok (cbThrow (.num 4)) PromiseContext.init).ctx)).ctx)).events
        = [.okCalled (.num 1), .catchCalled (.num 4), .finallyCalled (.num 1) (.num 9)])) :=
  ⟨rfl, rfl, rfl, rfl,
    catchInvocationRule (.num 1) (.num 2) (.num 9) (.num 3) (.num 4) (.num 9)
      (cbConst (.num 3)) (cbThrow (.num 4)) (cbConst (.num 9))
      rfl rfl rfl rfl⟩

/-- C8: with success, failure and cancellation observers all registered while
pending on an instance that is not awaited, `cancel()` followed by a single
settlement call — either `resolve` or `reject` — produces a run whose entire
trace is exactly one cancellation-observer invocation: the success and
failure observers (and the cleanup slot) are never invoked. -/
theorem cancelThenSettleInvokesOnlyCancellationObserver
    (v e : JSVal) (okcb fcb : Callback) (ccb : Callback0) :
    (((((TypedPromise.ok okcb PromiseContext.init).andThen
        (TypedPromise.fail fcb)).andThen
        (TypedPromise.cancelled ccb)).andThen
        TypedPromise.cancel).andThen
        (TypedPromise.resolve v)).events = [Event.cancelledCalled]
    ∧ (((((TypedPromise.ok okcb PromiseContext.init).andThen
        (TypedPromise.fail fcb)).andThen
        (TypedPromise.cancelled ccb)).andThen
        TypedPromise.cancel).andThen
        (TypedPromise.reject e)).events = [Event.cancelledCalled] := by
  constructor <;>
    cases hc : ccb () <;>
      simp [TypedPromise.ok, TypedPromise.fail, TypedPromise.cancelled,
        TypedPromise.cancel, TypedPromise.resolve, TypedPromise.reject,
        TypedPromise.settleOnCancelled, PromiseContext.init, Outcome.andThen, hc]

/-- C9: after the await bridge has registered its continuations (setting
`isAwaited`) and `cancel()` has been called, a later settlement — either
`resolve` or `reject` — invokes the failure continuation exactly once, with
the synthetic `\x7b cancelled: true \x7d` object (recognizable by its
cancellation marker) rather than the original resolved value or rejected
error, and never invokes the success continuation. -/
theorem awaitedCancelDeliversCancellationSignal
    (v e : JSVal) (cb rej : Callback) :
    (((TypedPromise.thenM cb (some rej) PromiseContext.init).andThen
        TypedPromise.cancel).andThen
        (TypedPromise.resolve v)).events = [Event.failCalled .cancelObj]
    ∧ (((TypedPromise.thenM cb (some rej) PromiseContext.init).andThen
        TypedPromise.cancel).andThen
        (TypedPromise.reject e)).events = [Event.failCalled .cancelObj]
    ∧ hasCancelledMarker .cancelObj = true
    ∧ hasCancelledMarker .undef = false := by
  refine ⟨?_, ?_, rfl, rfl⟩ <;>
    cases hr : rej .cancelObj <;>
      simp [TypedPromise.thenM, TypedPromise.cancel, TypedPromise.resolve,
        TypedPromise.reject, TypedPromise.settleOnCancelled,
        PromiseContext.init, Outcome.andThen, hr]

/-- C10: registering a cancellation observer on a context whose state is
already `cancelled` invokes the callback immediately, during the
registration call itself: the trace of the `cancelled(cb)` call is exactly
one cancellation-observer invocation. -/
theorem onCancelledAlreadyCancelledFiresImmediately
    (c : PromiseContext) (cb0 : Callback0) (h : c.status = .cancelled) :
    (TypedPromise.cancelled cb0 c).events = [Event.cancelledCalled] := by
  cases hc : cb0 () <;> simp [TypedPromise.cancelled, h, hc]

/-- C10 witness: the context produced by `cancel()` on a fresh instance is
cancelled, and registering a cancellation observer on it fires the callback
immediately. -/
theorem onCancelledAlreadyCancelledFiresImmediately_witness :
    (TypedPromise.cancel PromiseContext.init).ctx.status = .cancelled
    ∧ (TypedPromise.cancelled cb0Noop
        ((TypedPromise.cancel PromiseContext.init).ctx)).events
      = [Event.cancelledCalled] :=
  ⟨rfl, onCancelledAlreadyCancelledFiresImmediately
    (TypedPromise.cancel PromiseContext.init).ctx cb0Noop rfl⟩
